import Mathlib

/-!
Verification development for the Match Point League backend registration
workflow (`AuthService.signUp` / `AuthService.signIn`) and its field
validator (`ValidationService`).

The TypeScript services are shallowly embedded as pure Lean functions.
External collaborators (Firebase identity provider, PostgreSQL store,
postal-code lookup) are modelled as environments supplying the outcome of
each call; the embedding returns, next to the response object, a trace of
the calls made (counts and sleep delays), so that call-count properties of
the spec can be stated.

JavaScript value semantics that matter here (truthiness of strings and
numbers, `<`/`>` against `undefined`, the `%` remainder on numbers,
case-sensitive `Array.includes`) are modelled explicitly.
-/

namespace MPL

/-- JS truncated division used by the `%` operator: rounds toward zero. -/
def jsTrunc (q : ℚ) : ℤ := if 0 ≤ q then q.floor else q.ceil

/-- JS `%` on numbers: `a % b = a - b * trunc(a / b)` (sign of the dividend). -/
def jsFmod (a b : ℚ) : ℚ := a - b * (jsTrunc (a / b) : ℚ)

/-- JS `x < c` where `x` may be `undefined` (`none`): comparison with
`undefined` is `NaN`-like and yields `false`. -/
def jsLtOpt (x : Option ℚ) (c : ℚ) : Bool :=
  match x with
  | none => false
  | some v => decide (v < c)

/-- JS `x > c` where `x` may be `undefined`: `false` on `undefined`. -/
def jsGtOpt (x : Option ℚ) (c : ℚ) : Bool :=
  match x with
  | none => false
  | some v => decide (c < v)

/-- JS whitespace test (the `\s` class, restricted to the ASCII part,
which is all the repository's inputs use). -/
def isJsWhitespace (c : Char) : Bool :=
  c = ' ' ∨ c = '\t' ∨ c = '\n' ∨ c = '\r' ∨ c = '\x0b' ∨ c = '\x0c'

/-- JS `String.prototype.trim`: strip leading and trailing whitespace
(modelled on the character list so that it is kernel-reducible). -/
def jsTrim (s : String) : String :=
  ⟨((s.data.dropWhile isJsWhitespace).reverse.dropWhile isJsWhitespace).reverse⟩

/-- ASCII lowering of one character (JS `toLowerCase` on the inputs used
here). -/
def lowerChar (c : Char) : Char :=
  if 'A' ≤ c ∧ c ≤ 'Z' then Char.ofNat (c.toNat + 32) else c

/-- JS `String.prototype.toLowerCase` (ASCII range). -/
def jsToLower (s : String) : String := ⟨s.data.map lowerChar⟩

/-- JS truthiness of a string: the empty string is falsy. -/
def jsTruthyStr (s : String) : Bool := s != ""

/-- JS truthiness of a possibly-`undefined` number: `undefined` and `0` are falsy. -/
def jsTruthyNumOpt (x : Option ℚ) : Bool :=
  match x with
  | none => false
  | some v => v != 0

/-- JS `a || b` on strings (`b` when `a` is falsy). -/
def jsOrStr (a b : String) : String := if a = "" then b else a

/-- The email test `/^[^\s@]+@[^\s@]+\.[^\s@]+$/`: no whitespace anywhere,
exactly one `@`, a non-empty local part, and after the `@` a dot that has at
least one character on each side. -/
def emailRegexTest (s : String) : Bool :=
  let cs := s.data
  cs.all (fun c => ¬ isJsWhitespace c) &&
  cs.count '@' = 1 &&
  (let loc := cs.takeWhile (· ≠ '@')
   let dom := (cs.dropWhile (· ≠ '@')).drop 1
   loc.length ≥ 1 && ((dom.drop 1).dropLast.contains '.'))

/-- The password strength test `/(?=.*[a-z])(?=.*[A-Z])(?=.*\d)/`. -/
def passwordStrengthTest (s : String) : Bool :=
  s.data.any (fun c => 'a' ≤ c ∧ c ≤ 'z') &&
  s.data.any (fun c => 'A' ≤ c ∧ c ≤ 'Z') &&
  s.data.any (fun c => '0' ≤ c ∧ c ≤ '9')

/-- `ValidationService.validateZipCodeFormat`: `/^\d{5}(-\d{4})?$/`. -/
def validateZipCodeFormat (z : String) : Bool :=
  let cs := z.data
  (cs.length = 5 && cs.all Char.isDigit) ||
  (cs.length = 10 && (cs.take 5).all Char.isDigit &&
    cs.get? 5 = some '-' && (cs.drop 6).all Char.isDigit)

/-- City/state enrichment returned by the postal-code lookup. -/
structure CityInfo where
  city : String
  state : String
  fullLocation : String
deriving Repr, DecidableEq

/-- The per-field error map (`ValidationErrors`).  Each field is `none` when
the corresponding key is absent from the JS object.  The two validator
iterations use slightly different key sets (`preferredSports` vs
`sportsInterested`); both key sets are fields here, and a validator simply
never sets the keys it does not use. -/
structure ValidationErrors where
  fullName : Option String := none
  email : Option String := none
  confirmEmail : Option String := none
  password : Option String := none
  confirmPassword : Option String := none
  displayName : Option String := none
  preferredSports : Option String := none
  sportsInterested : Option String := none
  skillLevel : Option String := none
  zipCode : Option String := none
  general : Option String := none
deriving Repr, DecidableEq

/-- `Object.keys(errors).length === 0`. -/
def ValidationErrors.isEmpty (e : ValidationErrors) : Bool :=
  e.fullName = none && e.email = none && e.confirmEmail = none &&
  e.password = none && e.confirmPassword = none && e.displayName = none &&
  e.preferredSports = none && e.sportsInterested = none &&
  e.skillLevel = none && e.zipCode = none && e.general = none

/-- `RegistrationFormData` (the refactored registration shape).  `skillLevel`
is `Option ℚ` so that a request arriving without the field (`undefined` at
runtime) can be represented. -/
structure RegistrationFormData where
  fullName : String
  email : String
  confirmEmail : String
  password : String
  confirmPassword : String
  displayName : String
  preferredSports : List String
  skillLevel : Option ℚ
  zipCode : String
deriving Repr, DecidableEq

/-- `ValidationResult`. -/
structure ValidationResult where
  isValid : Bool
  errors : ValidationErrors
  cityInfo : Option CityInfo := none
deriving Repr, DecidableEq

/-- `SportOptions` values (`'tennis' | 'pickleball' | 'both'`, per
`types/userTypes` as used by the courts controller and the `users` schema). -/
def sportOptionsValues : List String := ["tennis", "pickleball", "both"]

/-- `ValidationService.validateFullName` (refactored iteration). -/
def validateFullName (fullName : String) : Option String :=
  if jsTrim fullName = "" then some "Full name is required"
  else if (jsTrim fullName).length < 2 then some "Full name must be at least 2 characters"
  else none

/-- `ValidationService.validateEmail` (refactored iteration). -/
def validateEmail (email : String) : Option String :=
  if email = "" then some "Email is required"
  else if ¬ emailRegexTest email then some "Please enter a valid email address"
  else none

/-- `ValidationService.validateConfirmEmail` (refactored iteration). -/
def validateConfirmEmail (confirmEmail email : String) : Option String :=
  if confirmEmail = "" then some "Please confirm your email"
  else if email ≠ confirmEmail then some "Email addresses do not match"
  else none

/-- `ValidationService.validatePassword` (refactored iteration). -/
def validatePassword (password : String) : Option String :=
  if password = "" then some "Password is required"
  else if password.length < 6 then some "Password must be at least 6 characters"
  else if ¬ passwordStrengthTest password then
    some "Password must contain at least one uppercase letter, one lowercase letter, and one number"
  else none

/-- `ValidationService.validateConfirmPassword` (refactored iteration). -/
def validateConfirmPassword (confirmPassword password : String) : Option String :=
  if confirmPassword = "" then some "Please confirm your password"
  else if password ≠ confirmPassword then some "Passwords do not match"
  else none

/-- `ValidationService.validateDisplayName` (refactored iteration). -/
def validateDisplayName (displayName : String) : Option String :=
  if displayName = "" then some "Display name is required"
  else none

/-- `ValidationService.validatePreferredSports` (refactored iteration):
every entry must be a `SportOptions` value, compared after `toLowerCase`. -/
def validatePreferredSports (preferredSports : List String) : Option String :=
  if preferredSports.isEmpty then some "Please select at least one sport"
  else
    let validSports := sportOptionsValues.map jsToLower
    let invalidSports := preferredSports.filter (fun s => ¬ validSports.contains (jsToLower s))
    if ¬ invalidSports.isEmpty then
      some ("Invalid sports selected: " ++ String.intercalate ", " invalidSports ++
        ". Only tennis and pickleball are allowed.")
    else none

/-- `ValidationService.validateSkillLevel` (refactored iteration): required,
in `[1, 5.5]`, and on the `0.5` grid (`skillLevel % 0.5 !== 0` test). -/
def validateSkillLevel (skillLevel : Option ℚ) : Option String :=
  match skillLevel with
  | none => some "Skill level is required"
  | some v =>
    if v < 1 ∨ 11/2 < v then some "Skill level must be between 1.0 and 5.5"
    else if jsFmod v (1/2) ≠ 0 then
      some "Skill level must be in increments of 0.5 (e.g., 1.0, 1.5, 2.0, etc.)"
    else none

/-- `ValidationService.validateZipCode` (refactored iteration). -/
def validateZipCode (zipCode : String) : Option String :=
  if zipCode = "" then some "ZIP code is required"
  else if ¬ validateZipCodeFormat zipCode then some "Please enter a valid ZIP code"
  else none

/-- `ValidationService.validateRegistrationData` (refactored iteration,
the per-field-helper version): runs every field check, then performs the
postal-code lookup whenever the zip-code check passed — even if other field
checks failed.  `lookupResult` is the outcome the external lookup would
return (`none` for a network failure or not-found); the second component of
the result records whether the lookup was invoked. -/
def validateRegistrationData (formData : RegistrationFormData)
    (lookupResult : Option CityInfo) : ValidationResult × Bool :=
  let errors : ValidationErrors :=
    { fullName := validateFullName formData.fullName
      email := validateEmail formData.email
      confirmEmail := validateConfirmEmail formData.confirmEmail formData.email
      password := validatePassword formData.password
      confirmPassword := validateConfirmPassword formData.confirmPassword formData.password
      displayName := validateDisplayName formData.displayName
      preferredSports := validatePreferredSports formData.preferredSports
      skillLevel := validateSkillLevel formData.skillLevel
      zipCode := validateZipCode formData.zipCode }
  let zipOk := validateZipCode formData.zipCode = none
  let cityInfo : Option CityInfo := if zipOk then lookupResult else none
  ({ isValid := errors.isEmpty, errors := errors, cityInfo := cityInfo }, zipOk)

/-- `SignUpRequest` (the earlier registration shape used by
`src/services/validationService.ts`): no confirm fields, sports under the
key `sportsInterested`. -/
structure SignUpRequest where
  email : String
  password : String
  fullName : String
  displayName : String
  sportsInterested : List String
  skillLevel : Option ℚ
  zipCode : String
deriving Repr, DecidableEq

/-- The error map collected inline by the early-return iteration of
`ValidationService.validateRegistrationData`
(`src/services/validationService.ts`).  Note its skill-level check is only
the two range comparisons `skillLevel < 1.0 || skillLevel > 5.5`, evaluated
with JS semantics (both are `false` when `skillLevel` is `undefined`), with
no grid or presence test. -/
def earlyReturnErrors (formData : SignUpRequest) : ValidationErrors :=
  { fullName :=
      if jsTrim formData.fullName = "" then some "Full name is required"
      else if (jsTrim formData.fullName).length < 2 then
        some "Full name must be at least 2 characters"
      else none
    email :=
      if formData.email = "" then some "Email is required"
      else if ¬ emailRegexTest formData.email then
        some "Please enter a valid email address"
      else none
    password :=
      if formData.password = "" then some "Password is required"
      else if formData.password.length < 6 then
        some "Password must be at least 6 characters"
      else if ¬ passwordStrengthTest formData.password then
        some "Password must contain at least one uppercase letter, one lowercase letter, and one number"
      else none
    displayName :=
      if formData.displayName = "" then some "Display name is required"
      else none
    sportsInterested :=
      if formData.sportsInterested.isEmpty then some "Please select at least one sport"
      else none
    skillLevel :=
      if jsLtOpt formData.skillLevel 1 || jsGtOpt formData.skillLevel (11/2) then
        some "Skill level must be between 1.0 and 5.5"
      else none
    zipCode :=
      if formData.zipCode = "" then some "ZIP code is required"
      else if ¬ validateZipCodeFormat formData.zipCode then
        some "Please enter a valid ZIP code"
      else none }

/-- `ValidationService.validateRegistrationData` as written in
`src/services/validationService.ts` (the early-return iteration): collect
the `earlyReturnErrors`, return before the postal-code lookup whenever any
error was recorded, and otherwise look the ZIP up.  The second component
records whether the lookup was invoked. -/
def validateRegistrationDataEarlyReturn (formData : SignUpRequest)
    (lookupResult : Option CityInfo) : ValidationResult × Bool :=
  let errors := earlyReturnErrors formData
  if ¬ errors.isEmpty then
    ({ isValid := false, errors := errors }, false)
  else
    let doLookup := jsTruthyStr formData.zipCode && validateZipCodeFormat formData.zipCode
    let cityInfo := if doLookup then lookupResult else none
    ({ isValid := true, errors := {}, cityInfo := cityInfo }, doLookup)

/-! ## The auth service (`src/services/authService.ts`, the
compensating-rollback iteration) -/

/-- `PreferredSport` (`SportOptions`) enum. -/
inductive PreferredSport where
  | tennis
  | pickleball
  | both
deriving Repr, DecidableEq

/-- The string value persisted for a `PreferredSport`. -/
def PreferredSport.toDbString : PreferredSport → String
  | .tennis => "tennis"
  | .pickleball => "pickleball"
  | .both => "both"

/-- `ValidationService.mapSportsToPreferredSport`: collapse the requested
sports list; the membership tests are JS `Array.includes`, i.e. exact
(case-sensitive) string comparison. -/
def mapSportsToPreferredSport (sports : List String) : PreferredSport :=
  if sports.contains "tennis" && sports.contains "pickleball" then .both
  else if sports.contains "pickleball" then .pickleball
  else .tennis

/-- `CreateUserInput`: the row values the workflow intends to write. -/
structure CreateUserInput where
  email : String
  name : String
  display_name : String
  skill_level : Option ℚ
  preferred_sport : String
  is_competitive : Bool
  city : String
  zip_code : String
  allow_direct_contact : Bool
deriving Repr, DecidableEq

/-- A PostgreSQL error as the service observes it: the SQLSTATE `code` and
the optional violated-`constraint` name. -/
structure DbError where
  code : String
  constraint : Option String := none
deriving Repr, DecidableEq

/-- `AuthService.isTransientError`: the fixed set of retryable SQLSTATEs. -/
def isTransientError (e : DbError) : Bool :=
  ["08000", "08003", "57014", "40P01", "55P03", "53300",
   "57P01", "57P02", "57P03"].contains e.code

/-- JS `String.prototype.includes`: `sub` occurs contiguously in `s`. -/
def strIncludes (s sub : String) : Bool :=
  (List.range (s.data.length + 1)).any (fun i => sub.data.isPrefixOf (s.data.drop i))

/-- `error.constraint && error.constraint.includes(sub)`. -/
def constraintIncludes (e : DbError) (sub : String) : Bool :=
  match e.constraint with
  | none => false
  | some c => strIncludes c sub

/-- `AuthService.handleDatabaseError`: map a store error to the user-facing
message. -/
def handleDatabaseError (e : DbError) : String :=
  if e.code = "23505" then
    if constraintIncludes e "email" then "An account with this email already exists"
    else "A record with this information already exists"
  else if e.code = "23502" then
    "Required information is missing. Please check your registration data."
  else if e.code = "23514" then
    if constraintIncludes e "skill_level" then "Skill level must be between 1.0 and 5.5"
    else if constraintIncludes e "preferred_sport" then
      "Preferred sport must be tennis, pickleball, or both"
    else "Invalid data provided. Please check your registration information."
  else if e.code = "08000" then "Database connection error. Please try again later."
  else if e.code = "08003" then "Database connection lost. Please try again later."
  else if e.code = "57014" then "Database operation was canceled. Please try again."
  else if e.code = "40P01" then "Database is temporarily busy. Please try again in a moment."
  else "Database error occurred. Please try again later."

/-- A Firebase error as observed by the service (`code` such as
`auth/email-already-exists` may be absent on REST errors; `message` may be
absent too). -/
structure FirebaseError where
  code : Option String := none
  message : Option String := none
deriving Repr, DecidableEq

/-- `AuthService.handleFirebaseError`: unified Admin-SDK / REST error
mapper. -/
def handleFirebaseError (e : FirebaseError) : String :=
  let msgFallback : String :=
    match e.message with
    | some m => if m = "" then "Authentication failed" else m
    | none => "Authentication failed"
  let codeIsAdminSdk : Bool :=
    match e.code with
    | some c => c ≠ "" && String.isPrefixOf "auth/" c
    | none => false
  if codeIsAdminSdk then
    let c := e.code.getD ""
    if c = "auth/email-already-exists" then "An account with this email already exists"
    else if c = "auth/invalid-email" then "Invalid email address"
    else if c = "auth/weak-password" then "Password is too weak"
    else if c = "auth/user-not-found" then "User not found"
    else if c = "auth/wrong-password" then "Incorrect password"
    else if c = "auth/user-disabled" then "This account has been disabled"
    else if c = "auth/too-many-requests" then "Too many failed attempts. Please try again later"
    else msgFallback
  else
    match e.message with
    | some m =>
      if m = "" then "Authentication failed"
      else if m = "EMAIL_NOT_FOUND" then "No account found with this email address"
      else if m = "INVALID_PASSWORD" then "Incorrect password"
      else if m = "USER_DISABLED" then "This account has been disabled"
      else if m = "TOO_MANY_ATTEMPTS_TRY_LATER" then "Too many failed attempts. Please try again later"
      else if m = "INVALID_EMAIL" then "Invalid email address"
      else if m = "INVALID_LOGIN_CREDENTIALS" then "Invalid email or password"
      else m
    | none => "Authentication failed"

/-- Outcome of a single run of `AuthService.retryDatabaseInsert`: the value
or the error finally thrown, the number of insert attempts actually made,
and the list of backoff delays slept (milliseconds, in order). -/
structure RetryOutcome where
  result : Except DbError Unit
  attempts : Nat
  sleeps : List Nat
deriving Repr

/-- `AuthService.retryDatabaseInsert`: the `for attempt in 1..maxRetries`
loop with `maxRetries = 3` and `baseDelay = 1000`, unrolled.  On each failed
attempt the error is rethrown when `attempt === maxRetries` or the error is
not transient; otherwise the loop sleeps `baseDelay * 2^(attempt-1)` ms and
retries.  `ins n` is the store's answer to the `n`-th insert attempt. -/
def retryDatabaseInsert (ins : Nat → Except DbError Unit) : RetryOutcome :=
  match ins 1 with
  | .ok _ => { result := .ok (), attempts := 1, sleeps := [] }
  | .error e1 =>
    if ¬ isTransientError e1 then { result := .error e1, attempts := 1, sleeps := [] }
    else
      match ins 2 with
      | .ok _ => { result := .ok (), attempts := 2, sleeps := [1000] }
      | .error e2 =>
        if ¬ isTransientError e2 then
          { result := .error e2, attempts := 2, sleeps := [1000] }
        else
          match ins 3 with
          | .ok _ => { result := .ok (), attempts := 3, sleeps := [1000, 2000] }
          | .error e3 => { result := .error e3, attempts := 3, sleeps := [1000, 2000] }

/-- A persisted `users` row as read back by the completeness check
(`SELECT email, name, display_name, skill_level, preferred_sport, city,
zip_code, role ... WHERE email = $1`). -/
structure StoredRow where
  email : String
  name : String
  display_name : String
  skill_level : Option ℚ
  preferred_sport : String
  city : String
  zip_code : String
  role : String
deriving Repr, DecidableEq

/-- Result of the re-read `SELECT` in `verifyDataCompleteness`: the query
may itself fail, return no row, or return the row. -/
inductive ReadBack where
  | queryError
  | noRows
  | row (r : StoredRow)
deriving Repr, DecidableEq

/-- One field comparison of `verifyDataCompleteness`:
`!storedData[field] || storedData[field] !== userData[field]` for a string
field (falsy = empty string). -/
def fieldMissingStr (stored intended : String) : Bool :=
  !(jsTruthyStr stored) || stored != intended

/-- The same comparison for the numeric `skill_level` field
(falsy = `undefined`/`null` or `0`). -/
def fieldMissingNum (stored intended : Option ℚ) : Bool :=
  !(jsTruthyNumOpt stored) || stored != intended

/-- `AuthService.verifyDataCompleteness`: re-read the row by email and check
the fields `email, name, display_name, skill_level, preferred_sport, city,
zip_code` (the selected `role` column is not compared, and the intended
`is_competitive` / `allow_direct_contact` flags are not checked).  A query
error or a missing row also count as incomplete.  Returns
`(isComplete, missingFields)`. -/
def verifyDataCompleteness (readBack : ReadBack) (userData : CreateUserInput) :
    Bool × List String :=
  match readBack with
  | .queryError => (false, ["verification_failed"])
  | .noRows => (false, ["all"])
  | .row stored =>
    let missing : List String :=
      (if fieldMissingStr stored.email userData.email then ["email"] else []) ++
      (if fieldMissingStr stored.name userData.name then ["name"] else []) ++
      (if fieldMissingStr stored.display_name userData.display_name then ["display_name"] else []) ++
      (if fieldMissingNum stored.skill_level userData.skill_level then ["skill_level"] else []) ++
      (if fieldMissingStr stored.preferred_sport userData.preferred_sport then ["preferred_sport"] else []) ++
      (if fieldMissingStr stored.city userData.city then ["city"] else []) ++
      (if fieldMissingStr stored.zip_code userData.zip_code then ["zip_code"] else [])
    (missing.isEmpty, missing)

/-- Step 3 of `signUp` ("Prepare user data for PostgreSQL"): the
`CreateUserInput` literal, with the preferred-sport collapse, default
flags, and `city := validationResult.cityInfo?.fullLocation || ''`. -/
def mkUserData (signUpData : RegistrationFormData)
    (validationResult : ValidationResult) : CreateUserInput :=
  { email := signUpData.email
    name := signUpData.fullName
    display_name := signUpData.displayName
    skill_level := signUpData.skillLevel
    preferred_sport :=
      (mapSportsToPreferredSport signUpData.preferredSports).toDbString
    is_competitive := false
    city := jsOrStr ((validationResult.cityInfo.map CityInfo.fullLocation).getD "") ""
    zip_code := signUpData.zipCode
    allow_direct_contact := false }

/-- `RegistrationResponse` as returned by `signUp`. -/
structure RegistrationResponse where
  success : Bool
  message : Option String := none
  error : Option String := none
  userId : Option String := none
  validationErrors : Option ValidationErrors := none
  warning : Option String := none
deriving Repr, DecidableEq

/-- Environment for one `signUp` run: the outcome each external call would
have if made.  Each call is synchronous in the model: its external effect
happens exactly when the call returns (the `Promise.race` timeout inside
`createFirebaseUserWithTimeout` is represented as one more way for the
create call to return an error). -/
structure SignUpEnv where
  authConfigured : Bool
  lookupResult : Option CityInfo
  createUserResult : Except FirebaseError String
  insertResult : Nat → Except DbError Unit
  deleteOk : Bool
  readBack : ReadBack

/-- Trace of external calls made by one `signUp` run. -/
structure SignUpTrace where
  lookupCalls : Nat := 0
  createCalls : Nat := 0
  insertCalls : Nat := 0
  deleteCalls : Nat := 0
  sleeps : List Nat := []
deriving Repr, DecidableEq

/-- Everything observable about one terminated `signUp` run: the response,
the call trace, the row values that were sent to the insert (if the run got
that far), and whether each half of the dual write exists afterwards. -/
structure SignUpOutcome where
  resp : RegistrationResponse
  trace : SignUpTrace
  userData : Option CreateUserInput
  identityExists : Bool
  rowExists : Bool
deriving Repr, DecidableEq

/-- `AuthService.signUp` (the compensating-rollback iteration): validate,
create the Firebase account, insert the profile row with retry, roll the
account back if the insert finally fails, and verify completeness after a
successful insert.  `identityExists` is true when the account was created
and not successfully deleted; `rowExists` when some insert attempt
succeeded. -/
def signUp (signUpData : RegistrationFormData) (env : SignUpEnv) : SignUpOutcome :=
  if ¬ env.authConfigured then
    -- `throw new Error('Firebase authentication not configured')` before any
    -- call; caught by the outer handler with `firebaseUser` still null.
    { resp := { success := false
                error := some (handleFirebaseError
                  { message := some "Firebase authentication not configured" }) }
      trace := {}
      userData := none, identityExists := false, rowExists := false }
  else
    let (validationResult, lookupCalled) :=
      validateRegistrationData signUpData env.lookupResult
    let lookupCount := if lookupCalled then 1 else 0
    if ¬ validationResult.isValid then
      { resp := { success := false
                  error := some "Validation failed"
                  validationErrors := some validationResult.errors }
        trace := { lookupCalls := lookupCount }
        userData := none, identityExists := false, rowExists := false }
    else
      match env.createUserResult with
      | .error fbError =>
        -- Create (or its timeout race) rejected: outer catch, no rollback.
        { resp := { success := false, error := some (handleFirebaseError fbError) }
          trace := { lookupCalls := lookupCount, createCalls := 1 }
          userData := none, identityExists := false, rowExists := false }
      | .ok uid =>
        let userData := mkUserData signUpData validationResult
        let retry := retryDatabaseInsert env.insertResult
        match retry.result with
        | .ok _ =>
          let completeness := verifyDataCompleteness env.readBack userData
          if ¬ completeness.1 then
            { resp := { success := true
                        message := some "User created successfully"
                        userId := some uid
                        warning := some "Some profile information may be incomplete" }
              trace := { lookupCalls := lookupCount, createCalls := 1
                         insertCalls := retry.attempts, sleeps := retry.sleeps }
              userData := some userData, identityExists := true, rowExists := true }
          else
            { resp := { success := true
                        message := some "User created successfully"
                        userId := some uid }
              trace := { lookupCalls := lookupCount, createCalls := 1
                         insertCalls := retry.attempts, sleeps := retry.sleeps }
              userData := some userData, identityExists := true, rowExists := true }
        | .error dbError =>
          -- `rollbackFirebaseUser`: the delete is attempted once; its own
          -- failure is only logged and does not change the response.
          { resp := { success := false, error := some (handleDatabaseError dbError) }
            trace := { lookupCalls := lookupCount, createCalls := 1
                       insertCalls := retry.attempts, deleteCalls := 1
                       sleeps := retry.sleeps }
            userData := some userData
            identityExists := !env.deleteOk
            rowExists := false }

/-! ## Sign-in (`AuthService.signIn`, the REST-verification iteration) -/

/-- `SignInRequest`. -/
structure SignInRequest where
  email : String
  password : String
deriving Repr, DecidableEq

/-- The profile row selected by `signIn`
(`SELECT id, email, name, display_name, role ... WHERE email = $1`). -/
structure ProfileRow where
  id : String
  email : String
  name : String
  display_name : String
  role : String
deriving Repr, DecidableEq

/-- The `user` object inside a successful `SignInResponse`.  Its fields are
exactly the ones the code writes: the Firebase UID, the profile columns
`email`, `name`, `display_name`, and the freshly minted token.  The selected
`role` column is not among them. -/
structure SignInUser where
  id : String
  email : String
  name : String
  displayName : String
  token : String
deriving Repr, DecidableEq

/-- `SignInResponse`. -/
structure SignInResponse where
  success : Bool
  message : Option String := none
  error : Option String := none
  token : Option String := none
  user : Option SignInUser := none
deriving Repr, DecidableEq

/-- Environment for one `signIn` run. -/
structure SignInEnv where
  authConfigured : Bool
  apiKeyConfigured : Bool
  getUserByEmail : Except Unit String
  restOk : Bool
  restErrorMessage : Option String
  profileRow : Option ProfileRow
  customToken : String

/-- Trace of the store calls a `signIn` run makes, by kind. -/
structure SignInTrace where
  dbSelects : Nat := 0
  dbWrites : Nat := 0
deriving Repr, DecidableEq

/-- `AuthService.signIn`: look the user up in Firebase, verify the password
via the Firebase Auth REST API, select the profile row by email, and mint a
custom token.  `env.getUserByEmail` is the Admin-SDK lookup (`.error` when
it throws, `.ok uid` otherwise); `env.restOk` / `env.restErrorMessage` model
the REST password check; `env.profileRow` is the store's answer to the
single `SELECT`; `env.customToken` is the token `createCustomToken` mints. -/
def signIn (signInData : SignInRequest) (env : SignInEnv) :
    SignInResponse × SignInTrace :=
  if ¬ env.authConfigured then
    ({ success := false
       error := some (handleFirebaseError
         { message := some "Firebase authentication not configured" }) }, {})
  else
    match env.getUserByEmail with
    | .error _ =>
      ({ success := false, error := some "No account found with this email address" }, {})
    | .ok uid =>
      if ¬ env.apiKeyConfigured then
        ({ success := false
           error := some (handleFirebaseError
             { message := some "Firebase API key not configured" }) }, {})
      else if ¬ env.restOk then
        let respError : String :=
          match env.restErrorMessage with
          | some "INVALID_PASSWORD" => "Incorrect password. Please try again."
          | some "USER_NOT_FOUND" => "No account found with this email address"
          | some "INVALID_EMAIL" => "Please enter a valid email address"
          | some "TOO_MANY_ATTEMPTS_TRY_LATER" => "Too many failed attempts. Please try again later."
          | _ => handleFirebaseError { message := env.restErrorMessage }
        ({ success := false, error := some respError }, {})
      else
        match env.profileRow with
        | none =>
          ({ success := false, error := some "User profile not found" },
           { dbSelects := 1 })
        | some row =>
          ({ success := true
             message := some "Sign in successful"
             token := some env.customToken
             user := some
               { id := uid
                 email := row.email
                 name := row.name
                 displayName := row.display_name
                 token := env.customToken } },
           { dbSelects := 1 })

/-! ## Shared concrete fixtures -/

/-- The spec's sample registration request. -/
def sampleRequest : RegistrationFormData :=
  { fullName := "Jane Doe", email := "a@b.com", confirmEmail := "a@b.com"
    password := "Abcdef1", confirmPassword := "Abcdef1", displayName := "JD"
    preferredSports := ["tennis"], skillLevel := some 3, zipCode := "10001" }

/-- A lookup answer for ZIP 10001. -/
def sampleCityInfo : CityInfo :=
  { city := "New York", state := "NY", fullLocation := "New York, NY" }

/-- A stored row agreeing with what `signUp` writes for `sampleRequest`
when the lookup succeeded. -/
def sampleRow : StoredRow :=
  { email := "a@b.com", name := "Jane Doe", display_name := "JD"
    skill_level := some 3, preferred_sport := "tennis", city := "New York, NY"
    zip_code := "10001", role := "player" }

/-- An environment in which every external call succeeds. -/
def happyEnv : SignUpEnv :=
  { authConfigured := true, lookupResult := some sampleCityInfo
    createUserResult := .ok "uid-1", insertResult := fun _ => .ok ()
    deleteOk := true, readBack := .row sampleRow }

/-- A transient store error (deadlock). -/
def deadlockError : DbError := { code := "40P01" }

/-- A non-transient store error (unique violation on the email key). -/
def uniqueEmailError : DbError := { code := "23505", constraint := some "users_email_key" }

/-- An environment whose insert always fails with the email-uniqueness
violation. -/
def rollbackEnv : SignUpEnv :=
  { happyEnv with insertResult := fun _ => .error uniqueEmailError }

/-! ## Helper lemmas -/

/-- `Rat.floor` agrees with the floor of the rational order. -/
lemma rat_floor_eq_intFloor (q : ℚ) : q.floor = ⌊q⌋ :=
  (Rat.floor_def' q).trans Rat.floor_def.symm

/-- On nonnegative arguments JS truncation is the floor. -/
lemma jsTrunc_of_nonneg (q : ℚ) (h : 0 ≤ q) : jsTrunc q = ⌊q⌋ := by
  rw [jsTrunc, if_pos h, rat_floor_eq_intFloor]

/-- `q % 0.5` for nonnegative `q`, written through the floor. -/
lemma jsFmod_half (q : ℚ) (h : 0 ≤ q) :
    jsFmod q (1/2) = q - (1/2) * (⌊2 * q⌋ : ℚ) := by
  have h2 : q / (1/2) = 2 * q := by ring
  have h4 : (0:ℚ) ≤ 2 * q := by linarith
  rw [jsFmod, h2, jsTrunc_of_nonneg _ h4]

/-- `q % 0.5 === 0` holds exactly on the half-integer grid (for
nonnegative `q`). -/
lemma jsFmod_half_eq_zero_iff (q : ℚ) (h : 0 ≤ q) :
    jsFmod q (1/2) = 0 ↔ ∃ k : ℤ, q = (k : ℚ) / 2 := by
  rw [jsFmod_half q h]
  constructor
  · intro h0
    exact ⟨⌊2 * q⌋, by linarith⟩
  · rintro ⟨k, rfl⟩
    have hk : (2 : ℚ) * ((k : ℚ) / 2) = (k : ℚ) := by ring
    rw [hk, Int.floor_intCast]
    ring

/-- Full characterization of the refactored skill-level check. -/
lemma validateSkillLevel_eq_none_iff (q : ℚ) :
    validateSkillLevel (some q) = none ↔
      (1 ≤ q ∧ q ≤ 11/2 ∧ ∃ k : ℤ, q = (k : ℚ) / 2) := by
  simp only [validateSkillLevel]
  by_cases hr : q < 1 ∨ 11/2 < q
  · rw [if_pos hr]
    simp only [reduceCtorEq, false_iff]
    rintro ⟨h1, h2, -⟩
    rcases hr with hr | hr
    · linarith
    · linarith
  · rw [if_neg hr]
    push_neg at hr
    have h0 : 0 ≤ q := by linarith [hr.1]
    by_cases hm : jsFmod q (1/2) = 0
    · simp only [hm, ne_eq, not_true_eq_false, if_neg, ite_false, true_iff]
      refine ⟨hr.1, hr.2, ?_⟩
      exact (jsFmod_half_eq_zero_iff q h0).mp hm
    · rw [if_pos hm]
      simp only [reduceCtorEq, false_iff]
      rintro ⟨-, -, hk⟩
      exact hm ((jsFmod_half_eq_zero_iff q h0).mpr hk)

/-- The sample skill level `3.0` passes the refactored check. -/
lemma validateSkillLevel_three : validateSkillLevel (some 3) = none :=
  (validateSkillLevel_eq_none_iff 3).mpr
    ⟨by norm_num, by norm_num, ⟨6, by norm_num⟩⟩

/-- Evaluation of the refactored validator on the sample request: valid,
no errors, lookup performed, `cityInfo` passed through. -/
lemma validateRegistrationData_sample (lr : Option CityInfo) :
    validateRegistrationData sampleRequest lr =
      ({ isValid := true, errors := {}, cityInfo := lr }, true) := by
  have h1 : validateFullName "Jane Doe" = none := by decide
  have h2 : validateEmail "a@b.com" = none := by decide
  have h3 : validateConfirmEmail "a@b.com" "a@b.com" = none := by decide
  have h4 : validatePassword "Abcdef1" = none := by decide
  have h5 : validateConfirmPassword "Abcdef1" "Abcdef1" = none := by decide
  have h6 : validateDisplayName "JD" = none := by decide
  have h7 : validatePreferredSports ["tennis"] = none := by decide
  have h8 : validateZipCode "10001" = none := by decide
  simp [validateRegistrationData, sampleRequest, h1, h2, h3, h4, h5, h6, h7, h8,
    validateSkillLevel_three, ValidationErrors.isEmpty]

/-- Evaluation of `signUp` along the path where validation and identity
creation succeed but the retried insert terminally fails. -/
lemma signUp_insert_fail_eval (req : RegistrationFormData) (env : SignUpEnv)
    (uid : String) (e : DbError) (vres : ValidationResult) (lc : Bool)
    (hauth : env.authConfigured = true)
    (hv : validateRegistrationData req env.lookupResult = (vres, lc))
    (hvalid : vres.isValid = true)
    (hcreate : env.createUserResult = .ok uid)
    (hfail : (retryDatabaseInsert env.insertResult).result = .error e) :
    signUp req env =
      { resp := { success := false, error := some (handleDatabaseError e) }
        trace := { lookupCalls := if lc then 1 else 0, createCalls := 1
                   insertCalls := (retryDatabaseInsert env.insertResult).attempts
                   deleteCalls := 1
                   sleeps := (retryDatabaseInsert env.insertResult).sleeps }
        userData := some (mkUserData req vres)
        identityExists := !env.deleteOk
        rowExists := false } := by
  rcases lc <;> simp_all [signUp]

/-- Evaluation of `signUp` along the path where validation, identity
creation and the (possibly retried) insert all succeed. -/
lemma signUp_insert_ok_eval (req : RegistrationFormData) (env : SignUpEnv)
    (uid : String) (vres : ValidationResult) (lc : Bool)
    (hauth : env.authConfigured = true)
    (hv : validateRegistrationData req env.lookupResult = (vres, lc))
    (hvalid : vres.isValid = true)
    (hcreate : env.createUserResult = .ok uid)
    (hok : (retryDatabaseInsert env.insertResult).result = .ok ()) :
    signUp req env =
      { resp := { success := true, message := some "User created successfully"
                  userId := some uid
                  warning :=
                    if (verifyDataCompleteness env.readBack (mkUserData req vres)).1 then
                      none
                    else some "Some profile information may be incomplete" }
        trace := { lookupCalls := if lc then 1 else 0, createCalls := 1
                   insertCalls := (retryDatabaseInsert env.insertResult).attempts
                   deleteCalls := 0
                   sleeps := (retryDatabaseInsert env.insertResult).sleeps }
        userData := some (mkUserData req vres)
        identityExists := true
        rowExists := true } := by
  rcases hc : (verifyDataCompleteness env.readBack (mkUserData req vres)).1 <;>
    rcases lc <;> simp_all [signUp]

/-! ## Claims -/

/-- C1: Dual-write atomicity of `signUp`.  For every registration attempt in
which the compensating delete succeeds when invoked (`env.deleteOk = true`),
a terminated run leaves either both the identity account and the store row
in existence with `success = true`, or neither with `success = false`. -/
theorem signUp_dual_write_atomic (req : RegistrationFormData) (env : SignUpEnv)
    (hdel : env.deleteOk = true) :
    ((signUp req env).resp.success = true ∧ (signUp req env).identityExists = true ∧
      (signUp req env).rowExists = true) ∨
    ((signUp req env).resp.success = false ∧ (signUp req env).identityExists = false ∧
      (signUp req env).rowExists = false) := by
  unfold signUp
  rcases hr : (retryDatabaseInsert env.insertResult).result with _ | e
  all_goals repeat' split
  all_goals try simp_all
  all_goals repeat' split
  all_goals simp_all

/-- Witness for C1 at the sample request in the all-success environment. -/
theorem signUp_dual_write_atomic_witness :
    happyEnv.deleteOk = true ∧
    (((signUp sampleRequest happyEnv).resp.success = true ∧
        (signUp sampleRequest happyEnv).identityExists = true ∧
        (signUp sampleRequest happyEnv).rowExists = true) ∨
      ((signUp sampleRequest happyEnv).resp.success = false ∧
        (signUp sampleRequest happyEnv).identityExists = false ∧
        (signUp sampleRequest happyEnv).rowExists = false)) :=
  ⟨rfl, signUp_dual_write_atomic sampleRequest happyEnv rfl⟩

/-- C2: when the store insert terminally fails with a non-transient error of
the uniqueness / not-null / check-violation classes, `signUp` invokes the
identity-provider delete exactly once, returns `success = false` with the
message derived from the store error class, and the response is the same
whether or not the compensating delete itself succeeds. -/
theorem signUp_nontransient_rollback (req : RegistrationFormData) (env : SignUpEnv)
    (uid : String) (e : DbError) (b : Bool)
    (hauth : env.authConfigured = true)
    (hvalid : (validateRegistrationData req env.lookupResult).1.isValid = true)
    (hcreate : env.createUserResult = .ok uid)
    (hfail : (retryDatabaseInsert env.insertResult).result = .error e)
    (hclass : e.code = "23505" ∨ e.code = "23502" ∨ e.code = "23514") :
    (signUp req env).resp.success = false ∧
    (signUp req env).resp.error = some (handleDatabaseError e) ∧
    (signUp req env).trace.deleteCalls = 1 ∧
    (signUp req env).resp = (signUp req { env with deleteOk := b }).resp := by
  clear hclass
  rcases hv : validateRegistrationData req env.lookupResult with ⟨vres, lc⟩
  simp_all [signUp]

/-- Witness for C2: the duplicate-email run of the sample request. -/
theorem signUp_nontransient_rollback_witness :
    (signUp sampleRequest rollbackEnv).resp.success = false ∧
    (signUp sampleRequest rollbackEnv).resp.error =
      some (handleDatabaseError uniqueEmailError) ∧
    (signUp sampleRequest rollbackEnv).trace.deleteCalls = 1 ∧
    (signUp sampleRequest rollbackEnv).resp =
      (signUp sampleRequest { rollbackEnv with deleteOk := false }).resp :=
  signUp_nontransient_rollback sampleRequest rollbackEnv "uid-1" uniqueEmailError false
    rfl (by rw [validateRegistrationData_sample]) rfl rfl (Or.inl rfl)

/-- C3 counterexample: in the run that exhausts every retry (all three
attempts fail with a transient deadlock), the loop sleeps `[1000, 2000]`
milliseconds — 3 seconds cumulative, and no 4-second delay ever occurs —
contradicting the claimed 1s, 2s, 4s schedule (~7s cumulative). -/
theorem retry_backoff_counterexample :
    (retryDatabaseInsert (fun _ => .error deadlockError)).attempts = 3 ∧
    (retryDatabaseInsert (fun _ => .error deadlockError)).sleeps = [1000, 2000] ∧
    (retryDatabaseInsert (fun _ => .error deadlockError)).sleeps.sum = 3000 ∧
    4000 ∉ (retryDatabaseInsert (fun _ => .error deadlockError)).sleeps := by
  decide

/-- C3 (amended): the retry loop makes at most 3 insert attempts, sleeps
1s then 2s between successive attempts (at most 3s cumulative before giving
up), retries only errors classified transient by the fixed code set, and a
run with transient failures on attempts 1 and 2 and success on attempt 3
returns `success = true` with the insert observed exactly 3 times and no
compensation call. -/
theorem signUp_retry_policy (req : RegistrationFormData) (env : SignUpEnv)
    (uid : String) (e1 e2 : DbError) (vres : ValidationResult) (lc : Bool)
    (hauth : env.authConfigured = true)
    (hv : validateRegistrationData req env.lookupResult = (vres, lc))
    (hvalid : vres.isValid = true)
    (hcreate : env.createUserResult = .ok uid)
    (h1 : env.insertResult 1 = .error e1) (ht1 : isTransientError e1 = true)
    (h2 : env.insertResult 2 = .error e2) (ht2 : isTransientError e2 = true)
    (h3 : env.insertResult 3 = .ok ()) :
    (∀ ins : Nat → Except DbError Unit,
      (retryDatabaseInsert ins).attempts ≤ 3 ∧
      (retryDatabaseInsert ins).sleeps =
        List.take ((retryDatabaseInsert ins).attempts - 1) [1000, 2000] ∧
      (retryDatabaseInsert ins).sleeps.sum ≤ 3000 ∧
      (2 ≤ (retryDatabaseInsert ins).attempts →
        ∃ e, ins 1 = .error e ∧ isTransientError e = true) ∧
      (3 ≤ (retryDatabaseInsert ins).attempts →
        ∃ e, ins 2 = .error e ∧ isTransientError e = true)) ∧
    (signUp req env).resp.success = true ∧
    (signUp req env).trace.insertCalls = 3 ∧
    (signUp req env).trace.deleteCalls = 0 ∧
    (signUp req env).trace.sleeps = [1000, 2000] := by
  have hretry : retryDatabaseInsert env.insertResult =
      { result := .ok (), attempts := 3, sleeps := [1000, 2000] } := by
    simp [retryDatabaseInsert, h1, h2, h3, ht1, ht2]
  constructor
  · intro ins
    cases g1 : ins 1 with
    | ok u =>
      have hr : retryDatabaseInsert ins =
          { result := .ok (), attempts := 1, sleeps := [] } := by
        simp [retryDatabaseInsert, g1]
      refine ⟨by simp [hr], by simp [hr], by simp [hr], ?_, ?_⟩
      · rw [hr]; intro h; simp at h
      · rw [hr]; intro h; simp at h
    | error f1 =>
      by_cases t1 : isTransientError f1 = true
      · cases g2 : ins 2 with
        | ok u =>
          have hr : retryDatabaseInsert ins =
              { result := .ok (), attempts := 2, sleeps := [1000] } := by
            simp [retryDatabaseInsert, g1, g2, t1]
          refine ⟨by simp [hr], by simp [hr], by simp [hr], ?_, ?_⟩
          · exact fun _ => ⟨f1, rfl, t1⟩
          · rw [hr]; intro h; simp at h
        | error f2 =>
          by_cases t2 : isTransientError f2 = true
          · cases g3 : ins 3 with
            | ok u =>
              have hr : retryDatabaseInsert ins =
                  { result := .ok (), attempts := 3, sleeps := [1000, 2000] } := by
                simp [retryDatabaseInsert, g1, g2, g3, t1, t2]
              refine ⟨by simp [hr], by simp [hr], by simp [hr], ?_, ?_⟩
              · exact fun _ => ⟨f1, rfl, t1⟩
              · exact fun _ => ⟨f2, rfl, t2⟩
            | error f3 =>
              have hr : retryDatabaseInsert ins =
                  { result := .error f3, attempts := 3, sleeps := [1000, 2000] } := by
                simp [retryDatabaseInsert, g1, g2, g3, t1, t2]
              refine ⟨by simp [hr], by simp [hr], by simp [hr], ?_, ?_⟩
              · exact fun _ => ⟨f1, rfl, t1⟩
              · exact fun _ => ⟨f2, rfl, t2⟩
          · have hr : retryDatabaseInsert ins =
                { result := .error f2, attempts := 2, sleeps := [1000] } := by
              simp [retryDatabaseInsert, g1, g2, t1, t2]
            refine ⟨by simp [hr], by simp [hr], by simp [hr], ?_, ?_⟩
            · exact fun _ => ⟨f1, rfl, t1⟩
            · rw [hr]; intro h; simp at h
      · have hr : retryDatabaseInsert ins =
            { result := .error f1, attempts := 1, sleeps := [] } := by
          simp [retryDatabaseInsert, g1, t1]
        refine ⟨by simp [hr], by simp [hr], by simp [hr], ?_, ?_⟩
        · rw [hr]; intro h; simp at h
        · rw [hr]; intro h; simp at h
  · have hs := signUp_insert_ok_eval req env uid vres lc hauth hv hvalid hcreate
      (by rw [hretry])
    rw [hs, hretry]
    refine ⟨rfl, rfl, rfl, rfl⟩

/-- Environment that fails transiently on the first two insert attempts and
succeeds on the third. -/
def transientThenOkEnv : SignUpEnv :=
  { happyEnv with
    insertResult := fun n => if n ≤ 2 then .error deadlockError else .ok () }

/-- Witness for C3 (amended) at the sample request in the
transient-transient-ok environment. -/
theorem signUp_retry_policy_witness :
    (∀ ins : Nat → Except DbError Unit,
      (retryDatabaseInsert ins).attempts ≤ 3 ∧
      (retryDatabaseInsert ins).sleeps =
        List.take ((retryDatabaseInsert ins).attempts - 1) [1000, 2000] ∧
      (retryDatabaseInsert ins).sleeps.sum ≤ 3000 ∧
      (2 ≤ (retryDatabaseInsert ins).attempts →
        ∃ e, ins 1 = .error e ∧ isTransientError e = true) ∧
      (3 ≤ (retryDatabaseInsert ins).attempts →
        ∃ e, ins 2 = .error e ∧ isTransientError e = true)) ∧
    (signUp sampleRequest transientThenOkEnv).resp.success = true ∧
    (signUp sampleRequest transientThenOkEnv).trace.insertCalls = 3 ∧
    (signUp sampleRequest transientThenOkEnv).trace.deleteCalls = 0 ∧
    (signUp sampleRequest transientThenOkEnv).trace.sleeps = [1000, 2000] :=
  signUp_retry_policy sampleRequest transientThenOkEnv "uid-1"
    deadlockError deadlockError
    { isValid := true, errors := {}, cityInfo := some sampleCityInfo } true
    rfl (validateRegistrationData_sample _) rfl rfl rfl (by decide) rfl (by decide) rfl

/-- A stored row in which the city is the empty string, matching what
`signUp` intends to write when the postal lookup failed. -/
def emptyCityRow : StoredRow := { sampleRow with city := "" }

/-- Environment where the postal lookup fails, the insert succeeds, and the
re-read row agrees with the intended values (city empty on both sides). -/
def emptyCityEnv : SignUpEnv :=
  { happyEnv with lookupResult := none, readBack := .row emptyCityRow }

/-- C4 counterexample: a run in which every compared persisted field equals
the intended value (city is the empty string on both sides because the
lookup failed), yet the response carries the incompleteness warning — the
completeness check treats a falsy (empty) stored value as missing even when
it matches what was written. -/
theorem signUp_warning_despite_match_counterexample :
    (emptyCityRow.email = (mkUserData sampleRequest ⟨true, {}, none⟩).email ∧
     emptyCityRow.name = (mkUserData sampleRequest ⟨true, {}, none⟩).name ∧
     emptyCityRow.display_name = (mkUserData sampleRequest ⟨true, {}, none⟩).display_name ∧
     emptyCityRow.skill_level = (mkUserData sampleRequest ⟨true, {}, none⟩).skill_level ∧
     emptyCityRow.preferred_sport = (mkUserData sampleRequest ⟨true, {}, none⟩).preferred_sport ∧
     emptyCityRow.city = (mkUserData sampleRequest ⟨true, {}, none⟩).city ∧
     emptyCityRow.zip_code = (mkUserData sampleRequest ⟨true, {}, none⟩).zip_code) ∧
    (signUp sampleRequest emptyCityEnv).resp.success = true ∧
    (signUp sampleRequest emptyCityEnv).resp.warning =
      some "Some profile information may be incomplete" := by
  have hs := signUp_insert_ok_eval sampleRequest emptyCityEnv "uid-1"
    ⟨true, {}, none⟩ true rfl (validateRegistrationData_sample _) rfl rfl rfl
  have hverify : (verifyDataCompleteness emptyCityEnv.readBack
      (mkUserData sampleRequest ⟨true, {}, none⟩)).1 = false := by decide
  refine ⟨⟨rfl, rfl, rfl, rfl, rfl, rfl, rfl⟩, ?_, ?_⟩
  · rw [hs]
  · rw [hs]
    simp [hverify]

/-- C4 (amended): after a successful insert, `signUp` always returns
`success = true` with the external UID and performs no rollback; the warning
is present exactly when the completeness check fails; and for a returned
row, the check passes exactly when every compared field (email, name,
display name, skill level, preferred sport, city, zip code) is truthy
(non-empty, non-zero) and equal to the intended value — so a matching but
empty field (e.g. city `\x22\x22`) still triggers the warning. -/
theorem signUp_post_insert_verification (req : RegistrationFormData)
    (env : SignUpEnv) (uid : String) (vres : ValidationResult) (lc : Bool)
    (hauth : env.authConfigured = true)
    (hv : validateRegistrationData req env.lookupResult = (vres, lc))
    (hvalid : vres.isValid = true)
    (hcreate : env.createUserResult = .ok uid)
    (hok : (retryDatabaseInsert env.insertResult).result = .ok ()) :
    (signUp req env).resp.success = true ∧
    (signUp req env).resp.userId = some uid ∧
    (signUp req env).trace.deleteCalls = 0 ∧
    (signUp req env).userData = some (mkUserData req vres) ∧
    ((signUp req env).resp.warning = none ↔
      (verifyDataCompleteness env.readBack (mkUserData req vres)).1 = true) ∧
    (∀ r : StoredRow, ∀ ud : CreateUserInput,
      (verifyDataCompleteness (.row r) ud).1 = true ↔
        (jsTruthyStr r.email = true ∧ r.email = ud.email ∧
         jsTruthyStr r.name = true ∧ r.name = ud.name ∧
         jsTruthyStr r.display_name = true ∧ r.display_name = ud.display_name ∧
         jsTruthyNumOpt r.skill_level = true ∧ r.skill_level = ud.skill_level ∧
         jsTruthyStr r.preferred_sport = true ∧ r.preferred_sport = ud.preferred_sport ∧
         jsTruthyStr r.city = true ∧ r.city = ud.city ∧
         jsTruthyStr r.zip_code = true ∧ r.zip_code = ud.zip_code)) := by
  have hs := signUp_insert_ok_eval req env uid vres lc hauth hv hvalid hcreate hok
  refine ⟨by rw [hs], by rw [hs], by rw [hs], by rw [hs], ?_, ?_⟩
  · rw [hs]
    rcases hc : (verifyDataCompleteness env.readBack (mkUserData req vres)).1 <;>
      simp [hc]
  · intro r ud
    simp only [verifyDataCompleteness, fieldMissingStr, fieldMissingNum,
      List.isEmpty_iff, List.append_eq_nil, ite_eq_right_iff,
      List.cons_ne_nil, imp_false, Bool.or_eq_true, Bool.not_eq_true',
      bne_iff_ne, ne_eq, not_or, not_not, Bool.not_eq_false]
    tauto

/-- Witness for C4 (amended) at the sample request in the all-success
environment. -/
theorem signUp_post_insert_verification_witness :
    (signUp sampleRequest happyEnv).resp.success = true ∧
    (signUp sampleRequest happyEnv).resp.userId = some "uid-1" ∧
    (signUp sampleRequest happyEnv).trace.deleteCalls = 0 ∧
    (signUp sampleRequest happyEnv).userData =
      some (mkUserData sampleRequest ⟨true, {}, some sampleCityInfo⟩) ∧
    ((signUp sampleRequest happyEnv).resp.warning = none ↔
      (verifyDataCompleteness happyEnv.readBack
        (mkUserData sampleRequest ⟨true, {}, some sampleCityInfo⟩)).1 = true) ∧
    (∀ r : StoredRow, ∀ ud : CreateUserInput,
      (verifyDataCompleteness (.row r) ud).1 = true ↔
        (jsTruthyStr r.email = true ∧ r.email = ud.email ∧
         jsTruthyStr r.name = true ∧ r.name = ud.name ∧
         jsTruthyStr r.display_name = true ∧ r.display_name = ud.display_name ∧
         jsTruthyNumOpt r.skill_level = true ∧ r.skill_level = ud.skill_level ∧
         jsTruthyStr r.preferred_sport = true ∧ r.preferred_sport = ud.preferred_sport ∧
         jsTruthyStr r.city = true ∧ r.city = ud.city ∧
         jsTruthyStr r.zip_code = true ∧ r.zip_code = ud.zip_code)) :=
  signUp_post_insert_verification sampleRequest happyEnv "uid-1"
    ⟨true, {}, some sampleCityInfo⟩ true
    rfl (validateRegistrationData_sample _) rfl rfl rfl

/-- Evaluation of the refactored validator on the sample request with the
display name removed: invalid with only the display-name error, and the
postal lookup still performed (its result attached). -/
lemma validateRegistrationData_noDisplayName (lr : Option CityInfo) :
    validateRegistrationData { sampleRequest with displayName := "" } lr =
      ({ isValid := false
         errors := { displayName := some "Display name is required" }
         cityInfo := lr }, true) := by
  have h1 : validateFullName "Jane Doe" = none := by decide
  have h2 : validateEmail "a@b.com" = none := by decide
  have h3 : validateConfirmEmail "a@b.com" "a@b.com" = none := by decide
  have h4 : validatePassword "Abcdef1" = none := by decide
  have h5 : validateConfirmPassword "Abcdef1" "Abcdef1" = none := by decide
  have h6 : validateDisplayName "" = some "Display name is required" := by decide
  have h7 : validatePreferredSports ["tennis"] = none := by decide
  have h8 : validateZipCode "10001" = none := by decide
  simp [validateRegistrationData, sampleRequest, h1, h2, h3, h4, h5, h6, h7, h8,
    validateSkillLevel_three, ValidationErrors.isEmpty]

/-- C5: a registration request with at least one structural field error is
rejected by `signUp` with `success = false` and a non-empty field-error map,
and with zero identity-provider calls and zero store calls. -/
theorem signUp_validation_gate (req : RegistrationFormData) (env : SignUpEnv)
    (hauth : env.authConfigured = true)
    (hinvalid : (validateRegistrationData req env.lookupResult).1.isValid = false) :
    (signUp req env).resp.success = false ∧
    (signUp req env).resp.validationErrors =
      some (validateRegistrationData req env.lookupResult).1.errors ∧
    (validateRegistrationData req env.lookupResult).1.errors.isEmpty = false ∧
    (signUp req env).trace.createCalls = 0 ∧
    (signUp req env).trace.insertCalls = 0 ∧
    (signUp req env).trace.deleteCalls = 0 := by
  have hne : (validateRegistrationData req env.lookupResult).1.errors.isEmpty = false := by
    have hiff : (validateRegistrationData req env.lookupResult).1.isValid =
        (validateRegistrationData req env.lookupResult).1.errors.isEmpty := rfl
    rw [← hiff]
    exact hinvalid
  rcases hv : validateRegistrationData req env.lookupResult with ⟨vres, lc⟩
  rw [hv] at hinvalid hne
  rcases lc <;> simp_all [signUp]

/-- Witness for C5 at the sample request with an empty display name. -/
theorem signUp_validation_gate_witness :
    (signUp { sampleRequest with displayName := "" } happyEnv).resp.success = false ∧
    (signUp { sampleRequest with displayName := "" } happyEnv).resp.validationErrors =
      some (validateRegistrationData { sampleRequest with displayName := "" }
        happyEnv.lookupResult).1.errors ∧
    (validateRegistrationData { sampleRequest with displayName := "" }
      happyEnv.lookupResult).1.errors.isEmpty = false ∧
    (signUp { sampleRequest with displayName := "" } happyEnv).trace.createCalls = 0 ∧
    (signUp { sampleRequest with displayName := "" } happyEnv).trace.insertCalls = 0 ∧
    (signUp { sampleRequest with displayName := "" } happyEnv).trace.deleteCalls = 0 :=
  signUp_validation_gate { sampleRequest with displayName := "" } happyEnv
    rfl (by rw [validateRegistrationData_noDisplayName])

/-- C6 counterexample: in the refactored validator iteration, a request
with a failing structural check (empty display name) but a valid ZIP still
performs the postal-code lookup and attaches its result, contradicting "if
and only if all structural checks pass". -/
theorem validator_lookup_despite_error_counterexample :
    (validateRegistrationData { sampleRequest with displayName := "" }
      (some sampleCityInfo)).1.isValid = false ∧
    (validateRegistrationData { sampleRequest with displayName := "" }
      (some sampleCityInfo)).2 = true ∧
    (validateRegistrationData { sampleRequest with displayName := "" }
      (some sampleCityInfo)).1.cityInfo = some sampleCityInfo := by
  rw [validateRegistrationData_noDisplayName]
  exact ⟨rfl, rfl, rfl⟩

/-- C6 (amended): the early-return validator iteration performs the postal
lookup exactly when all structural checks pass, while the refactored
iteration performs it exactly when the zip-code check passes — even when
other structural checks fail; in both iterations a lookup failure is
swallowed: validity is unchanged and `cityInfo` is simply absent. -/
theorem validator_lookup_policy :
    (∀ (req : RegistrationFormData) (lr : Option CityInfo),
      (validateRegistrationData req lr).2 =
        decide (validateZipCode req.zipCode = none)) ∧
    (∀ (req : RegistrationFormData) (lr : Option CityInfo),
      (validateRegistrationData req lr).1.cityInfo =
        (if validateZipCode req.zipCode = none then lr else none)) ∧
    (∀ (req : RegistrationFormData) (ci : CityInfo),
      (validateRegistrationData req none).1.isValid =
        (validateRegistrationData req (some ci)).1.isValid ∧
      (validateRegistrationData req none).1.cityInfo = none) ∧
    (∀ (req : SignUpRequest) (lr : Option CityInfo),
      ((validateRegistrationDataEarlyReturn req lr).2 = true ↔
        (validateRegistrationDataEarlyReturn req lr).1.isValid = true)) ∧
    (∀ (req : SignUpRequest) (ci : CityInfo),
      (validateRegistrationDataEarlyReturn req none).1.isValid =
        (validateRegistrationDataEarlyReturn req (some ci)).1.isValid ∧
      (validateRegistrationDataEarlyReturn req none).1.cityInfo = none) := by
  refine ⟨fun req lr => rfl, ?_, ?_, ?_, ?_⟩
  · intro req lr
    by_cases h : validateZipCode req.zipCode = none <;>
      simp [validateRegistrationData, h]
  · intro req ci
    constructor
    · rfl
    · by_cases h : validateZipCode req.zipCode = none <;>
        simp [validateRegistrationData, h]
  · intro req lr
    by_cases h : (earlyReturnErrors req).isEmpty = true
    · have hzc : (earlyReturnErrors req).zipCode = none := by
        simp only [ValidationErrors.isEmpty, Bool.and_eq_true, decide_eq_true_eq] at h
        exact h.1.2
      simp only [earlyReturnErrors] at hzc
      simp only [validateRegistrationDataEarlyReturn, h]
      by_cases hz : req.zipCode = ""
      · simp [hz] at hzc
      · by_cases hf : validateZipCodeFormat req.zipCode = true
        · simp [jsTruthyStr, bne_iff_ne, hz, hf]
        · simp [hz, hf] at hzc
    · simp [validateRegistrationDataEarlyReturn, h]
  · intro req ci
    by_cases h : (earlyReturnErrors req).isEmpty = true <;>
      simp [validateRegistrationDataEarlyReturn, h]

/-- C7: the skill-level check accepts exactly the values in `[1, 5.5]` that
lie on the `0.5` grid; in particular `1.0`, `2.5` and `5.5` produce no
skill-level error while `0.99`, `2.25` and `5.51` each produce one — and
this check is exactly what the validator records for the request's
skill-level field. -/
theorem validateSkillLevel_grid :
    (∀ (req : RegistrationFormData) (lr : Option CityInfo),
      (validateRegistrationData req lr).1.errors.skillLevel =
        validateSkillLevel req.skillLevel) ∧
    (∀ q : ℚ, validateSkillLevel (some q) = none ↔
      (1 ≤ q ∧ q ≤ 11/2 ∧ ∃ k : ℤ, q = (k : ℚ) / 2)) ∧
    validateSkillLevel (some 1) = none ∧
    validateSkillLevel (some (5/2)) = none ∧
    validateSkillLevel (some (11/2)) = none ∧
    (validateSkillLevel (some (99/100))).isSome = true ∧
    (validateSkillLevel (some (9/4))).isSome = true ∧
    (validateSkillLevel (some (551/100))).isSome = true := by
  refine ⟨fun req lr => rfl, validateSkillLevel_eq_none_iff, ?_, ?_, ?_, ?_, ?_, ?_⟩
  · exact (validateSkillLevel_eq_none_iff 1).mpr
      ⟨le_refl 1, by norm_num, ⟨2, by norm_num⟩⟩
  · exact (validateSkillLevel_eq_none_iff _).mpr
      ⟨by norm_num, by norm_num, ⟨5, by norm_num⟩⟩
  · exact (validateSkillLevel_eq_none_iff _).mpr
      ⟨by norm_num, by norm_num, ⟨11, by norm_num⟩⟩
  · rcases hc : validateSkillLevel (some (99/100)) with _ | m
    · have := (validateSkillLevel_eq_none_iff _).mp hc
      norm_num at this
    · rfl
  · rcases hc : validateSkillLevel (some (9/4)) with _ | m
    · obtain ⟨-, -, k, hk⟩ := (validateSkillLevel_eq_none_iff _).mp hc
      have h2 : ((2 * k : ℤ) : ℚ) = 9 := by push_cast; linarith
      have h3 : (2 * k : ℤ) = 9 := by exact_mod_cast h2
      omega
    · rfl
  · rcases hc : validateSkillLevel (some (551/100)) with _ | m
    · have := (validateSkillLevel_eq_none_iff _).mp hc
      norm_num at this
    · rfl

/-- Evaluation of the refactored validator on the sample request with the
sports entry cased as `"Pickleball"`: still valid (the sports check lowers
entries before comparing). -/
lemma validateRegistrationData_pickleballCased (lr : Option CityInfo) :
    validateRegistrationData { sampleRequest with preferredSports := ["Pickleball"] } lr =
      ({ isValid := true, errors := {}, cityInfo := lr }, true) := by
  have h1 : validateFullName "Jane Doe" = none := by decide
  have h2 : validateEmail "a@b.com" = none := by decide
  have h3 : validateConfirmEmail "a@b.com" "a@b.com" = none := by decide
  have h4 : validatePassword "Abcdef1" = none := by decide
  have h5 : validateConfirmPassword "Abcdef1" "Abcdef1" = none := by decide
  have h6 : validateDisplayName "JD" = none := by decide
  have h7 : validatePreferredSports ["Pickleball"] = none := by decide
  have h8 : validateZipCode "10001" = none := by decide
  simp [validateRegistrationData, sampleRequest, h1, h2, h3, h4, h5, h6, h7, h8,
    validateSkillLevel_three, ValidationErrors.isEmpty]

/-- C8 counterexample: the request whose only sports entry is
`"Pickleball"` passes validation (entries are compared case-insensitively),
its requested set contains only pickleball, yet the persisted
`preferred_sport` is `"tennis"`, not `"pickleball"` — the collapse uses
case-sensitive `includes`. -/
theorem preferred_sport_collapse_counterexample :
    validatePreferredSports ["Pickleball"] = none ∧
    (validateRegistrationData { sampleRequest with preferredSports := ["Pickleball"] }
      (some sampleCityInfo)).1.isValid = true ∧
    mapSportsToPreferredSport ["Pickleball"] = .tennis ∧
    (signUp { sampleRequest with preferredSports := ["Pickleball"] } happyEnv).userData =
      some (mkUserData { sampleRequest with preferredSports := ["Pickleball"] }
        ⟨true, {}, some sampleCityInfo⟩) ∧
    (mkUserData { sampleRequest with preferredSports := ["Pickleball"] }
      ⟨true, {}, some sampleCityInfo⟩).preferred_sport = "tennis" := by
  have hs := signUp_insert_ok_eval
    { sampleRequest with preferredSports := ["Pickleball"] } happyEnv "uid-1"
    ⟨true, {}, some sampleCityInfo⟩ true
    rfl (validateRegistrationData_pickleballCased _) rfl rfl rfl
  refine ⟨by decide, ?_, by decide, by rw [hs], rfl⟩
  rw [validateRegistrationData_pickleballCased]

/-- C8 (amended): for validated requests the row sent to the store carries
the collapse of the requested sports, and on exact lowercase tokens the
collapse is as specified: `both` when both tokens occur, `pickleball` when
pickleball occurs without tennis, `tennis` when tennis occurs without
pickleball; entries that match the known tokens only case-insensitively
pass validation but are ignored by the case-sensitive collapse, which then
defaults to `tennis`. -/
theorem signUp_preferred_sport_collapse (req : RegistrationFormData)
    (env : SignUpEnv) (uid : String) (vres : ValidationResult) (lc : Bool)
    (hauth : env.authConfigured = true)
    (hv : validateRegistrationData req env.lookupResult = (vres, lc))
    (hvalid : vres.isValid = true)
    (hcreate : env.createUserResult = .ok uid)
    (hok : (retryDatabaseInsert env.insertResult).result = .ok ())
    (hsports : ∀ x ∈ req.preferredSports, x = "tennis" ∨ x = "pickleball") :
    (signUp req env).userData = some (mkUserData req vres) ∧
    (("tennis" ∈ req.preferredSports ∧ "pickleball" ∈ req.preferredSports) →
      (mkUserData req vres).preferred_sport = "both") ∧
    (("pickleball" ∈ req.preferredSports ∧ "tennis" ∉ req.preferredSports) →
      (mkUserData req vres).preferred_sport = "pickleball") ∧
    (("tennis" ∈ req.preferredSports ∧ "pickleball" ∉ req.preferredSports) →
      (mkUserData req vres).preferred_sport = "tennis") := by
  have hs := signUp_insert_ok_eval req env uid vres lc hauth hv hvalid hcreate hok
  refine ⟨by rw [hs], ?_, ?_, ?_⟩
  · rintro ⟨ht, hp⟩
    simp [mkUserData, mapSportsToPreferredSport, PreferredSport.toDbString, ht, hp]
  · rintro ⟨hp, ht⟩
    simp [mkUserData, mapSportsToPreferredSport, PreferredSport.toDbString, ht, hp]
  · rintro ⟨ht, hp⟩
    simp [mkUserData, mapSportsToPreferredSport, PreferredSport.toDbString, ht, hp]

/-- Witness for C8 (amended) at the sample request (sports
`["tennis"]`). -/
theorem signUp_preferred_sport_collapse_witness :
    ((signUp sampleRequest happyEnv).userData =
      some (mkUserData sampleRequest ⟨true, {}, some sampleCityInfo⟩) ∧
    (("tennis" ∈ sampleRequest.preferredSports ∧
        "pickleball" ∈ sampleRequest.preferredSports) →
      (mkUserData sampleRequest ⟨true, {}, some sampleCityInfo⟩).preferred_sport = "both") ∧
    (("pickleball" ∈ sampleRequest.preferredSports ∧
        "tennis" ∉ sampleRequest.preferredSports) →
      (mkUserData sampleRequest ⟨true, {}, some sampleCityInfo⟩).preferred_sport = "pickleball") ∧
    (("tennis" ∈ sampleRequest.preferredSports ∧
        "pickleball" ∉ sampleRequest.preferredSports) →
      (mkUserData sampleRequest ⟨true, {}, some sampleCityInfo⟩).preferred_sport = "tennis")) :=
  signUp_preferred_sport_collapse sampleRequest happyEnv "uid-1"
    ⟨true, {}, some sampleCityInfo⟩ true
    rfl (validateRegistrationData_sample _) rfl rfl rfl
    (by intro x hx; simp [sampleRequest] at hx; exact Or.inl hx)

/-- A profile row as selected by `signIn`. -/
def sampleProfileRow : ProfileRow :=
  { id := "42", email := "a@b.com", name := "Jane Doe"
    display_name := "JD", role := "player" }

/-- A sign-in environment in which every step succeeds. -/
def signInEnvOk : SignInEnv :=
  { authConfigured := true, apiKeyConfigured := true
    getUserByEmail := .ok "uid-1", restOk := true, restErrorMessage := none
    profileRow := some sampleProfileRow, customToken := "tok-1" }

/-- C9 counterexample: two successful sign-in runs whose profile rows
differ only in the `role` column produce identical responses — the role is
selected from the store but not included in the returned payload, so
`signIn` does not return the user's role. -/
theorem signIn_role_not_returned_counterexample :
    sampleProfileRow.role ≠
      ({ sampleProfileRow with role := "admin" } : ProfileRow).role ∧
    (signIn { email := "a@b.com", password := "Secret1" } signInEnvOk).1.success = true ∧
    signIn { email := "a@b.com", password := "Secret1" } signInEnvOk =
      signIn { email := "a@b.com", password := "Secret1" }
        { signInEnvOk with profileRow := some { sampleProfileRow with role := "admin" } } := by
  decide

/-- C9 (amended): `signIn` verifies the credentials against the identity
provider, looks the profile row up by email, mints a fresh session token,
and on success returns the token together with the profile fields (UID,
email, name, display name) — but not the `role`, which is selected and then
dropped; it performs no store writes; and the account-not-found,
bad-credentials, account-disabled and too-many-attempts failures each
return `success = false` with their stable messages. -/
theorem signIn_behavior (data : SignInRequest) (env : SignInEnv)
    (uid : String) (row : ProfileRow)
    (hauth : env.authConfigured = true)
    (hkey : env.apiKeyConfigured = true) :
    (env.getUserByEmail = .ok uid → env.restOk = true →
      env.profileRow = some row →
      signIn data env =
        ({ success := true, message := some "Sign in successful"
           token := some env.customToken
           user := some { id := uid, email := row.email, name := row.name
                          displayName := row.display_name
                          token := env.customToken } },
         { dbSelects := 1 })) ∧
    (∀ (d : SignInRequest) (e : SignInEnv), (signIn d e).2.dbWrites = 0) ∧
    (env.getUserByEmail = .error () →
      (signIn data env).1 =
        { success := false, error := some "No account found with this email address" }) ∧
    (env.getUserByEmail = .ok uid → env.restOk = false →
      env.restErrorMessage = some "INVALID_PASSWORD" →
      (signIn data env).1 =
        { success := false, error := some "Incorrect password. Please try again." }) ∧
    (env.getUserByEmail = .ok uid → env.restOk = false →
      env.restErrorMessage = some "USER_DISABLED" →
      (signIn data env).1 =
        { success := false, error := some "This account has been disabled" }) ∧
    (env.getUserByEmail = .ok uid → env.restOk = false →
      env.restErrorMessage = some "TOO_MANY_ATTEMPTS_TRY_LATER" →
      (signIn data env).1 =
        { success := false, error := some "Too many failed attempts. Please try again later." }) := by
  refine ⟨?_, ?_, ?_, ?_, ?_, ?_⟩
  · intro h1 h2 h3
    simp [signIn, hauth, hkey, h1, h2, h3]
  · intro d e
    unfold signIn
    repeat' split
    all_goals rfl
  · intro h1
    simp [signIn, hauth, hkey, h1]
  · intro h1 h2 h3
    simp [signIn, hauth, hkey, h1, h2, h3]
  · intro h1 h2 h3
    simp [signIn, hauth, hkey, h1, h2, h3, handleFirebaseError]
  · intro h1 h2 h3
    simp [signIn, hauth, hkey, h1, h2, h3]

/-- Witness for C9 (amended) in the all-success sign-in environment. -/
theorem signIn_behavior_witness :
    ((signInEnvOk.getUserByEmail = .ok "uid-1" → signInEnvOk.restOk = true →
      signInEnvOk.profileRow = some sampleProfileRow →
      signIn { email := "a@b.com", password := "Secret1" } signInEnvOk =
        ({ success := true, message := some "Sign in successful"
           token := some signInEnvOk.customToken
           user := some { id := "uid-1", email := sampleProfileRow.email
                          name := sampleProfileRow.name
                          displayName := sampleProfileRow.display_name
                          token := signInEnvOk.customToken } },
         { dbSelects := 1 })) ∧
    (∀ (d : SignInRequest) (e : SignInEnv), (signIn d e).2.dbWrites = 0) ∧
    (signInEnvOk.getUserByEmail = .error () →
      (signIn { email := "a@b.com", password := "Secret1" } signInEnvOk).1 =
        { success := false, error := some "No account found with this email address" }) ∧
    (signInEnvOk.getUserByEmail = .ok "uid-1" → signInEnvOk.restOk = false →
      signInEnvOk.restErrorMessage = some "INVALID_PASSWORD" →
      (signIn { email := "a@b.com", password := "Secret1" } signInEnvOk).1 =
        { success := false, error := some "Incorrect password. Please try again." }) ∧
    (signInEnvOk.getUserByEmail = .ok "uid-1" → signInEnvOk.restOk = false →
      signInEnvOk.restErrorMessage = some "USER_DISABLED" →
      (signIn { email := "a@b.com", password := "Secret1" } signInEnvOk).1 =
        { success := false, error := some "This account has been disabled" }) ∧
    (signInEnvOk.getUserByEmail = .ok "uid-1" → signInEnvOk.restOk = false →
      signInEnvOk.restErrorMessage = some "TOO_MANY_ATTEMPTS_TRY_LATER" →
      (signIn { email := "a@b.com", password := "Secret1" } signInEnvOk).1 =
        { success := false, error := some "Too many failed attempts. Please try again later." })) :=
  signIn_behavior { email := "a@b.com", password := "Secret1" } signInEnvOk
    "uid-1" sampleProfileRow rfl rfl

/-- C10: in the early-return validation service, a request whose skill
level is absent (`undefined`) gets no skill-level error — both range
comparisons against `undefined` are `false` — and an otherwise well-formed
request with no skill level passes structural validation
(`isValid = true`), so it can proceed to the external calls. -/
theorem skillLevel_undefined_passes :
    (∀ (req : SignUpRequest) (lr : Option CityInfo),
      (earlyReturnErrors { req with skillLevel := none }).skillLevel = none ∧
      (validateRegistrationDataEarlyReturn
        { req with skillLevel := none } lr).1.errors.skillLevel = none) ∧
    (validateRegistrationDataEarlyReturn
      { email := "a@b.com", password := "Abcdef1", fullName := "Jane Doe"
        displayName := "JD", sportsInterested := ["tennis"]
        skillLevel := none, zipCode := "10001" } none).1.isValid = true := by
  constructor
  · intro req lr
    constructor
    · simp [earlyReturnErrors, jsLtOpt, jsGtOpt]
    · by_cases h : (earlyReturnErrors { req with skillLevel := none }).isEmpty = true
      · simp [validateRegistrationDataEarlyReturn, h]
      · simp [validateRegistrationDataEarlyReturn, h]
        simp [earlyReturnErrors, jsLtOpt, jsGtOpt]
  · decide

end MPL
